import Mathlib

/-!
Shallow embedding of `cogs/meta.py` (the Akane bot's `Meta` cog) and proofs
about its prefix management, permission formula, charinfo command and
user-lookup error paths.

External collaborators (the platform client, `ctx.tick`, the
`set_guild_prefixes` persistence call, the Unicode character database) are
modelled as parameters or tabulated data; everything else is translated
directly from the Python source.
-/

namespace Akane

/-! ## Permission formula (serverinfo secrecy classification)

Source: `perms = discord.Permissions((everyone_perms & ~deny.value) | allow.value)`.
Python's `a & ~b` on nonnegative arbitrary-precision integers clears in `a`
exactly the bits set in `b`; on naturals that is `Nat.ldiff`. -/

/-- Python `a & ~b` for nonnegative integers: bit `i` of the result is
`a.testBit i && !b.testBit i`, which is `Nat.ldiff`. -/
def pyAndNot (a b : Nat) : Nat :=
  Nat.ldiff a b

/-- The effective permission value computed in `Meta.serverinfo` for a channel:
`(everyone_perms & ~deny.value) | allow.value`. -/
def effectivePermissions (everyone_perms deny allow : Nat) : Nat :=
  pyAndNot everyone_perms deny ||| allow

/-! ## charinfo -/

/-- Python `f"{n:x}"`: lowercase hexadecimal digits of `n`, no padding. -/
def natToHex (n : Nat) : String :=
  String.mk (Nat.toDigits 16 n)

/-- Python `f"{s:>08}"`: right-align `s` in width 8, filling with `'0'`. -/
def padZero8 (s : String) : String :=
  String.mk (List.replicate (8 - s.length) '0') ++ s

/-- Modelled from the spec: `unicodedata.name(c, "Name not found.")`, the
Unicode Character Database name lookup used by `charinfo`; it is Python
standard-library data external to this module, tabulated here for the
codepoints exercised in this development, with the source's fallback
for every other codepoint. -/
def unicodedataName (c : Char) : String :=
  if c = 'A' then "LATIN CAPITAL LETTER A"
  else "Name not found."

/-- The inner `to_string` of `Meta.charinfo`: one report line per character.
`\N{EM DASH}` in the Python source is the character `—` (U+2014), and the
doubled backslash `\\U` of the source denotes a literal backslash
followed by `U`. -/
def to_string (c : Char) : String :=
  let digit := natToHex c.toNat
  let name := unicodedataName c
  "`\\U" ++ padZero8 digit ++ "`: " ++ name ++ " - " ++ String.singleton c ++
    " — <http://www.fileformat.info/info/unicode/char/" ++ digit ++ ">"

/-- The list that `map(to_string, characters)` yields in `Meta.charinfo`:
one entry per character of the input, with no length cap anywhere. -/
def charinfo_lines (characters : String) : List String :=
  characters.data.map to_string

/-- The message `charinfo` sends: `"\n".join(map(to_string, characters))`. -/
def charinfo_msg (characters : String) : String :=
  String.intercalate "\n" (charinfo_lines characters)

/-! Substring search, used to state containment facts about output text. -/

/-- `listHasInfix pat l` is true iff `pat` occurs contiguously inside `l`. -/
def listHasInfix (pat : List Char) : List Char → Bool
  | [] => pat.isEmpty
  | a :: t => pat.isPrefixOf (a :: t) || listHasInfix pat t

/-- `hasSubstr s pat` is true iff `pat` occurs as a substring of `s`. -/
def hasSubstr (s pat : String) : Bool :=
  listHasInfix pat.data s.data

/-! ## The `Prefix` argument converter

Source: `Prefix.convert` raises `BadArgument` when the argument starts with
either mention encoding of the bot's own user id, before the command body
(and hence any prefix-store access) runs; otherwise it returns the argument.
Errors are modelled as `Except.error` carrying the `BadArgument` text. -/

/-- Python `s.startswith(pre)`: `pre` is a prefix of `s`. -/
def pyStartswith (s pre : String) : Bool :=
  pre.data.isPrefixOf s.data

/-- `Prefix.convert`: reject an argument starting with either mention form
`<@id>` or `<@!id>` of the bot's own user id. -/
def Prefix_convert (user_id : Nat) (argument : String) : Except String String :=
  if pyStartswith argument s!"<@{user_id}>" || pyStartswith argument s!"<@!{user_id}>" then
    .error "That is a reserved prefix already in use."
  else
    .ok argument

/-! ## The `FetchedUser` argument converter and the user-info path

Source: `FetchedUser.convert` rejects non-digit arguments, then calls the
external `ctx.bot.fetch_user`, translating `discord.NotFound` and
`discord.HTTPException` into `BadArgument` errors.  `Meta.cog_command_error`
sends the text of a `BadArgument` back to the chat, so a conversion failure
ends the command with a plain message and no embed. -/

/-- Outcome of the external `ctx.bot.fetch_user` call. -/
inductive FetchOutcome (User : Type) : Type where
  | found (u : User)
  | notFound
  | httpError

/-- Python `s.isdigit()` restricted to ASCII digits: nonempty and all digits. -/
def pyIsdigit (s : String) : Bool :=
  !s.isEmpty && s.data.all Char.isDigit

/-- `FetchedUser.convert`: digit check, then fetch, translating the two
platform exceptions into `BadArgument` messages. -/
def FetchedUser_convert {User : Type} (fetch_user : String → FetchOutcome User)
    (argument : String) : Except String User :=
  if !(pyIsdigit argument) then .error "Not a valid user ID."
  else
    match fetch_user argument with
    | .found u => .ok u
    | .notFound => .error "User not found."
    | .httpError => .error "An error occurred while fetching the user."

/-- What a command invocation sends back: either a plain text message (the
`cog_command_error` path for a `BadArgument`) or an embed built for a user. -/
inductive CommandReply (User : Type) : Type where
  | message (text : String)
  | embedOf (u : User)
deriving DecidableEq

/-- The user-info path through the `FetchedUser` converter: a conversion
error becomes a plain chat message via `cog_command_error`; success reaches
the embed-building body of `Meta.info`. -/
def info_user_path {User : Type} (fetch_user : String → FetchOutcome User)
    (argument : String) : CommandReply User :=
  match FetchedUser_convert fetch_user argument with
  | .error m => .message m
  | .ok u => .embedOf u

/-! ## Prefix commands

The external setter `bot.set_guild_prefixes` either succeeds or raises; it is
a parameter `set_guild_prefixes : List String → Except String Unit` carrying
the raised error's text.  `ctx.tick` is the host's success/failure indicator,
a parameter `tick : Bool → String`.  A command's observable outcome records
the list passed to the setter (if it was called) and the chat message sent;
a command that lets an exception escape is `Except.error`. -/

/-- Observable outcome of one prefix mutation command: the argument passed to
`set_guild_prefixes` (when it was called) and the chat reply sent. -/
structure CmdResult where
  setterCalledWith : Option (List String)
  message : String
deriving Repr, DecidableEq

/-- `Meta.prefix_add`: append the converted prefix to the raw stored list and
persist it, catching a persistence exception and echoing
`f"{ctx.tick(False)} {e}"`; on success reply `ctx.tick(True)`. -/
def prefix_add (tick : Bool → String) (set_guild_prefixes : List String → Except String Unit)
    (current_prefixes : List String) (pfx : String) : Except String CmdResult :=
  let new_prefixes := current_prefixes ++ [pfx]
  match set_guild_prefixes new_prefixes with
  | .error e => .ok { setterCalledWith := some new_prefixes, message := tick false ++ " " ++ e }
  | .ok _ => .ok { setterCalledWith := some new_prefixes, message := tick true }

/-- `Meta.prefix_remove`: `list.remove` raises `ValueError` when the prefix is
absent, answered with a fixed message and an early return (no setter call);
otherwise remove the first occurrence and persist, catching a persistence
exception as in `prefix_add`. -/
def prefix_remove (tick : Bool → String) (set_guild_prefixes : List String → Except String Unit)
    (current_prefixes : List String) (pfx : String) : Except String CmdResult :=
  if current_prefixes.contains pfx then
    let new_prefixes := current_prefixes.erase pfx
    match set_guild_prefixes new_prefixes with
    | .error e => .ok { setterCalledWith := some new_prefixes, message := tick false ++ " " ++ e }
    | .ok _ => .ok { setterCalledWith := some new_prefixes, message := tick true }
  else
    .ok { setterCalledWith := none, message := "I do not have this prefix registered." }

/-- `Meta.prefix_clear`: persist the empty list with no `try`/`except`, so a
persistence exception propagates out of the handler unhandled. -/
def prefix_clear (tick : Bool → String) (set_guild_prefixes : List String → Except String Unit) :
    Except String CmdResult :=
  match set_guild_prefixes [] with
  | .error e => .error e
  | .ok _ => .ok { setterCalledWith := some [], message := tick true }

/-- Python `enumerate(xs, start)`. -/
def enumerate {α : Type} (start : Nat) : List α → List (Nat × α)
  | [] => []
  | a :: t => (start, a) :: enumerate (start + 1) t

/-- The description lines of the bare `prefix` command:
`f"{index}. {elem}" for index, elem in enumerate(prefixes, 1)`. -/
def prefix_display_lines (prefixes : List String) : List String :=
  (enumerate 1 prefixes).map fun (index, elem) => s!"{index}. {elem}"

/-- The embed the bare `prefix` command sends: its description and footer. -/
structure PrefixEmbed where
  description : String
  footer : String
deriving Repr, DecidableEq

/-- The bare `prefix` command: `del prefixes[1]` (an `IndexError` when the
list has fewer than two entries, raised before the embed is built or sent),
then an embed listing the remaining entries enumerated from 1, with footer
`f"{len(prefixes)} prefixes"`. -/
def prefix_bare (prefixes : List String) : Except String PrefixEmbed :=
  if 1 < prefixes.length then
    let pruned := prefixes.eraseIdx 1
    .ok { description := String.intercalate "\n" (prefix_display_lines pruned),
          footer := s!"{pruned.length} prefixes" }
  else
    .error "IndexError: list assignment index out of range"

/-! ## Helper lemmas -/

/-- A string starts with itself, as in Python `s.startswith(s)`. -/
theorem pyStartswith_self (s : String) : pyStartswith s s = true := by
  simp [pyStartswith, List.isPrefixOf_iff_prefix]

/-- Indexing `enumerate start l` shifts the index by `start` and pairs it
with the corresponding element of `l`. -/
theorem enumerate_getElem? {α : Type} (l : List α) (start i : Nat) :
    (enumerate start l)[i]? = (l[i]?).map fun a => (i + start, a) := by
  induction l generalizing start i with
  | nil => simp [enumerate]
  | cons a t ih =>
    cases i with
    | zero => simp [enumerate]
    | succ n =>
      simp only [enumerate, List.getElem?_cons_succ, ih]
      have h1 : n + (start + 1) = n + 1 + start := by omega
      rw [h1]

/-- `enumerate` preserves length. -/
theorem enumerate_length {α : Type} (l : List α) (start : Nat) :
    (enumerate start l).length = l.length := by
  induction l generalizing start with
  | nil => rfl
  | cons a t ih => simp [enumerate, ih]

/-- The line at position `i` of the display is entry `i` of the pruned list,
numbered `i + 1`. -/
theorem prefix_display_lines_getElem? (prefixes : List String) (i : Nat) :
    (prefix_display_lines prefixes)[i]? =
      (prefixes[i]?).map fun elem => s!"{i + 1}. {elem}" := by
  rw [prefix_display_lines, List.getElem?_map, enumerate_getElem?]
  cases h : prefixes[i]? with
  | none => rfl
  | some e => rfl

/-- The display has one line per entry of the pruned list. -/
theorem prefix_display_lines_length (prefixes : List String) :
    (prefix_display_lines prefixes).length = prefixes.length := by
  simp [prefix_display_lines, enumerate_length]

/-! ## Claim theorems -/

/-- C1 (counterexample): with the stored list `["!"]` and the already-present
prefix `"!"`, `prefix_add` is not rejected: it replies with the success tick
and passes `["!", "!"]` — the stored list with a duplicate appended, not the
unchanged stored list — to the external setter. -/
theorem prefix_add_duplicate_not_rejected_cex :
    prefix_add (fun b => if b then "Y" else "N") (fun _ => .ok ()) ["!"] "!" =
      .ok { setterCalledWith := some ["!", "!"], message := "Y" } ∧
    (some ["!", "!"] : Option (List String)) ≠ some ["!"] :=
  ⟨rfl, by decide⟩

/-- C1 (amended): `prefix_add` performs no duplicate check at all: for every
stored list and every prefix, present already or not, it calls the external
setter exactly with the stored list plus the prefix appended; any duplicate
rejection is the external setter's responsibility, not this module's. -/
theorem prefix_add_always_appends (tick : Bool → String)
    (set_guild_prefixes : List String → Except String Unit)
    (current_prefixes : List String) (pfx : String) :
    ∃ r, prefix_add tick set_guild_prefixes current_prefixes pfx = .ok r ∧
      r.setterCalledWith = some (current_prefixes ++ [pfx]) := by
  rcases h : set_guild_prefixes (current_prefixes ++ [pfx]) with e | u
  · refine ⟨⟨some (current_prefixes ++ [pfx]), tick false ++ " " ++ e⟩, ?_, rfl⟩
    simp [prefix_add, h]
  · refine ⟨⟨some (current_prefixes ++ [pfx]), tick true⟩, ?_, rfl⟩
    simp [prefix_add, h]

/-- C2 (counterexample): `prefix_clear` wraps its `set_guild_prefixes` call in
no `try`/`except`, so a persistence failure propagates out of the handler
unhandled instead of being echoed back — refuting the claim for the clear
operation at the concrete failing setter below. -/
theorem prefix_clear_propagates_persistence_error_cex :
    prefix_clear (fun b => if b then "Y" else "N") (fun _ => .error "disk full") =
      .error "disk full" :=
  rfl

/-- C2 (amended): `prefix_add` and `prefix_remove` catch a persistence
failure and echo the raw error text prefixed with the failure indicator
`ctx.tick(False)`, but `prefix_clear` does not catch it: the exception
propagates unhandled. -/
theorem prefix_mutation_persistence_error_handling (tick : Bool → String)
    (set_guild_prefixes : List String → Except String Unit)
    (current_prefixes : List String) (pfx e : String) :
    (set_guild_prefixes (current_prefixes ++ [pfx]) = .error e →
      prefix_add tick set_guild_prefixes current_prefixes pfx =
        .ok { setterCalledWith := some (current_prefixes ++ [pfx]),
              message := tick false ++ " " ++ e }) ∧
    (current_prefixes.contains pfx = true →
      set_guild_prefixes (current_prefixes.erase pfx) = .error e →
      prefix_remove tick set_guild_prefixes current_prefixes pfx =
        .ok { setterCalledWith := some (current_prefixes.erase pfx),
              message := tick false ++ " " ++ e }) ∧
    (set_guild_prefixes [] = .error e →
      prefix_clear tick set_guild_prefixes = .error e) := by
  refine ⟨?_, ?_, ?_⟩
  · intro h
    simp [prefix_add, h]
  · intro hc hs
    rw [prefix_remove, if_pos hc]
    simp [hs]
  · intro h
    simp [prefix_clear, h]

/-- C2 (witness): at the concrete setter that always fails with `"boom"` and
the failure tick `"N"`, add and remove echo `"N boom"` while clear lets the
error escape. -/
theorem prefix_mutation_persistence_error_handling_witness :
    prefix_add (fun b => if b then "Y" else "N") (fun _ => .error "boom") ["!"] "?" =
        .ok { setterCalledWith := some ["!", "?"], message := "N boom" } ∧
    prefix_remove (fun b => if b then "Y" else "N") (fun _ => .error "boom") ["!"] "!" =
        .ok { setterCalledWith := some [], message := "N boom" } ∧
    prefix_clear (fun b => if b then "Y" else "N") (fun _ => .error "boom") = .error "boom" := by
  have h := prefix_mutation_persistence_error_handling (fun b => if b then "Y" else "N")
    (fun _ => .error "boom") ["!"] "?" "boom"
  have h2 := prefix_mutation_persistence_error_handling (fun b => if b then "Y" else "N")
    (fun _ => .error "boom") ["!"] "!" "boom"
  exact ⟨h.1 rfl, by simpa using h2.2.1 (by decide) rfl, h.2.2 rfl⟩

/-- C3: for every base permission bitmask and every channel allow/deny
overwrite pair, every bit of the value computed for secrecy classification
equals `(base AND NOT deny) OR allow`; on a bit where allow and deny are both
set the outer disjunct makes the bit true, so allow wins by operation order. -/
theorem serverinfo_effective_permissions_bitwise (everyone_perms deny allow i : Nat) :
    (effectivePermissions everyone_perms deny allow).testBit i =
      ((everyone_perms.testBit i && !(deny.testBit i)) || allow.testBit i) := by
  simp [effectivePermissions, pyAndNot, Nat.testBit_lor, Nat.testBit_ldiff]

/-- C4 (counterexample): the line `charinfo` produces for `"A"` spells the
codepoint as `` `\U00000041` ``; the text `U+000041` claimed by the spec does
not occur in it. -/
theorem charinfo_A_no_uplus_codepoint_cex :
    hasSubstr (charinfo_msg "A") "U+000041" = false := by
  decide

/-- C4 (amended): `charinfo "A"` produces exactly one line, containing the
codepoint text `\U00000041` and the Unicode name `LATIN CAPITAL LETTER A`. -/
theorem charinfo_A_line_contents :
    charinfo_msg "A" =
      "`\\U00000041`: LATIN CAPITAL LETTER A - A — <http://www.fileformat.info/info/unicode/char/41>" ∧
    hasSubstr (charinfo_msg "A") "\\U00000041" = true ∧
    hasSubstr (charinfo_msg "A") "LATIN CAPITAL LETTER A" = true := by
  refine ⟨rfl, ?_, ?_⟩ <;> decide

/-- C5 (counterexample): for the stored list
`["!", "<mention>", "<mention2>", "?"]` the bare `prefix` command lists
`1. !`, `2. <mention2>` and `3. ?` — not only `1. !` and `2. ?` as the
claim's example asserts. -/
theorem prefix_display_example_cex :
    prefix_bare ["!", "<mention>", "<mention2>", "?"] =
      .ok { description := "1. !\n2. <mention2>\n3. ?", footer := "3 prefixes" } ∧
    ("1. !\n2. <mention2>\n3. ?" : String) ≠ "1. !\n2. ?" :=
  ⟨rfl, by decide⟩

/-- C5 (amended): for every stored list of length at least 2, the bare
`prefix` command drops exactly the entry at index 1 and displays every other
entry, numbered consecutively from 1 in stored order: entry 0 as `1. x`, and
entry `i + 2` of the stored list as line `i + 1` with number `i + 2`. -/
theorem prefix_display_omits_index_one (x y : String) (t : List String) :
    ∃ L, prefix_bare (x :: y :: t) =
        .ok { description := String.intercalate "\n" L,
              footer := s!"{t.length + 1} prefixes" } ∧
      L.length = (x :: y :: t).length - 1 ∧
      L[0]? = some s!"1. {x}" ∧
      ∀ i e, t[i]? = some e → L[i + 1]? = some s!"{i + 2}. {e}" := by
  refine ⟨prefix_display_lines (x :: t), ?_, ?_, ?_, ?_⟩
  · have h2 : 1 < (x :: y :: t).length := by simp
    have he : (x :: y :: t).eraseIdx 1 = x :: t := rfl
    rw [prefix_bare, if_pos h2]
    simp [he]
  · rw [prefix_display_lines_length]
    simp
  · rw [prefix_display_lines_getElem?]
    simp only [List.getElem?_cons_zero, Option.map_some']
    rfl
  · intro i e he
    rw [prefix_display_lines_getElem?]
    simp only [List.getElem?_cons_succ, he, Option.map_some']

/-- C5 (witness): at the stored list `["!", "<mention>", "<mention2>", "?"]`
the displayed lines are `1. !`, `2. <mention2>` and `3. ?`. -/
theorem prefix_display_omits_index_one_witness :
    ∃ L, prefix_bare ["!", "<mention>", "<mention2>", "?"] =
        .ok { description := String.intercalate "\n" L, footer := "3 prefixes" } ∧
      L.length = 3 ∧ L[0]? = some "1. !" ∧
      L[1]? = some "2. <mention2>" ∧ L[2]? = some "3. ?" := by
  obtain ⟨L, h1, h2, h3, h4⟩ :=
    prefix_display_omits_index_one "!" "<mention>" ["<mention2>", "?"]
  refine ⟨L, ?_, ?_, ?_, ?_, ?_⟩
  · exact h1
  · simpa using h2
  · exact h3
  · exact h4 0 "<mention2>" rfl
  · exact h4 1 "?" rfl

/-- C6: the `Prefix` converter rejects, with the fixed `BadArgument` text,
every argument that begins with either mention encoding of the bot's own
user id; in particular an argument exactly equal to either mention form.
The converter runs before the command body, hence before any store access. -/
theorem Prefix_convert_rejects_mention_forms (user_id : Nat) (argument : String) :
    ((pyStartswith argument s!"<@{user_id}>" = true ∨
        pyStartswith argument s!"<@!{user_id}>" = true) →
      Prefix_convert user_id argument = .error "That is a reserved prefix already in use.") ∧
    Prefix_convert user_id s!"<@{user_id}>" =
      .error "That is a reserved prefix already in use." ∧
    Prefix_convert user_id s!"<@!{user_id}>" =
      .error "That is a reserved prefix already in use." := by
  refine ⟨?_, ?_, ?_⟩
  · intro h
    rw [Prefix_convert, if_pos]
    rcases h with h | h <;> simp [h]
  · rw [Prefix_convert, if_pos]
    simp [pyStartswith_self]
  · rw [Prefix_convert, if_pos]
    simp [pyStartswith_self]

/-- C6 (witness): with bot user id 42, the argument `"<@42> hi"` starts with
the mention form and is rejected, and both exact mention forms are
rejected. -/
theorem Prefix_convert_rejects_mention_forms_witness :
    pyStartswith "<@42> hi" "<@42>" = true ∧
    Prefix_convert 42 "<@42> hi" = .error "That is a reserved prefix already in use." ∧
    Prefix_convert 42 "<@42>" = .error "That is a reserved prefix already in use." ∧
    Prefix_convert 42 "<@!42>" = .error "That is a reserved prefix already in use." := by
  have h := Prefix_convert_rejects_mention_forms 42 "<@42> hi"
  exact ⟨by decide, h.1 (Or.inl (by decide)), h.2.1, h.2.2⟩

/-- C7: removing a prefix that is not in the stored list replies
`"I do not have this prefix registered."` and returns without calling the
external setter, leaving the stored list unchanged. -/
theorem prefix_remove_missing_reports_failure (tick : Bool → String)
    (set_guild_prefixes : List String → Except String Unit)
    (current_prefixes : List String) (pfx : String)
    (h : current_prefixes.contains pfx = false) :
    prefix_remove tick set_guild_prefixes current_prefixes pfx =
      .ok { setterCalledWith := none, message := "I do not have this prefix registered." } := by
  rw [prefix_remove, if_neg]
  simpa using h

/-- C7 (witness): removing `"?"` from the stored list `["!"]`. -/
theorem prefix_remove_missing_reports_failure_witness :
    (["!"] : List String).contains "?" = false ∧
    prefix_remove (fun b => if b then "Y" else "N") (fun _ => .ok ()) ["!"] "?" =
      .ok { setterCalledWith := none, message := "I do not have this prefix registered." } :=
  ⟨by decide, prefix_remove_missing_reports_failure (fun b => if b then "Y" else "N")
    (fun _ => .ok ()) ["!"] "?" (by decide)⟩

/-- C8: when the argument is a numeric user id and the external fetch reports
not-found, the user-info path sends exactly the chat message
`"User not found."` and no embed. -/
theorem info_user_not_found_message {User : Type}
    (fetch_user : String → FetchOutcome User) (argument : String)
    (hdigit : pyIsdigit argument = true) (hmiss : fetch_user argument = .notFound) :
    info_user_path fetch_user argument = .message "User not found." := by
  simp [info_user_path, FetchedUser_convert, hdigit, hmiss]

/-- C8 (witness): the numeric argument `"123"` with a fetch that reports
not-found yields the message and no embed. -/
theorem info_user_not_found_message_witness :
    pyIsdigit "123" = true ∧
    info_user_path (fun _ => (FetchOutcome.notFound : FetchOutcome Unit)) "123" =
      .message "User not found." :=
  ⟨by decide, info_user_not_found_message (fun _ => FetchOutcome.notFound) "123" (by decide) rfl⟩

/-- C9: when the stored list has fewer than two entries, the unguarded
`del prefixes[1]` of the bare `prefix` command raises an `IndexError` before
any embed is built or sent; the display is total only for length ≥ 2. -/
theorem prefix_bare_short_list_index_error (prefixes : List String)
    (h : prefixes.length < 2) :
    prefix_bare prefixes = .error "IndexError: list assignment index out of range" := by
  unfold prefix_bare
  rw [if_neg]
  omega

/-- C9 (witness): the empty stored list raises. -/
theorem prefix_bare_short_list_index_error_witness :
    ([] : List String).length < 2 ∧
    prefix_bare [] = .error "IndexError: list assignment index out of range" :=
  ⟨by decide, prefix_bare_short_list_index_error [] (by decide)⟩

/-- C10: `charinfo` emits exactly one report line per character of its input,
for inputs of every length: no 25-character limit exists in the operation,
despite the command's help text claiming one. -/
theorem charinfo_one_line_per_char (characters : String) :
    (charinfo_lines characters).length = characters.length := by
  unfold charinfo_lines
  rw [List.length_map]
  rfl

end Akane
